import Mathlib

/-!
Verification of the LLM matching service (`src/lib/llm.js`) and its candidate
data source resolver (`db.js`) against the natural-language specification.

JavaScript values flowing through the pipeline are modelled by an explicit
JSON value type; JavaScript `undefined` is modelled as `Option.none` where a
field access can miss.  Decimal number literals of the source are modelled as
exact rationals (the claims under study depend only on ordering, sign and the
exact decimal values, which coincide with IEEE evaluation at every input used
below).
-/

namespace LlmSvc

/-- JSON values (the shape of `JSON.parse` output and of JS object data). -/
inductive Json where
  | null : Json
  | bool : Bool → Json
  | num : Rat → Json
  | str : String → Json
  | arr : List Json → Json
  | obj : List (String × Json) → Json
deriving Repr

/-- JS truthiness of a defined value: `null`, `false`, `0` and `""` are falsy;
arrays and objects are always truthy. -/
def Json.truthy : Json → Bool
  | .null => false
  | .bool b => b
  | .num q => q != 0
  | .str s => s != ""
  | .arr _ => true
  | .obj _ => true

/-- `j === null` (JSON has no undefined inside parsed values). -/
def Json.isNull : Json → Bool
  | .null => true
  | _ => false

/-- Property access `j[k]`: `none` models JS `undefined`.  For objects with a
duplicate key the later entry wins, as in JS object construction. -/
def Json.get : Json → String → Option Json
  | .obj fs, k => (fs.reverse.find? (fun p => p.1 == k)).map (·.2)
  | _, _ => none

mutual

/-- JS string coercion `String(j)` (number formatting approximated by the
rational's decimal form; only string keys are exercised by the claims). -/
def Json.jsStr : Json → String
  | .null => "null"
  | .bool true => "true"
  | .bool false => "false"
  | .num q => toString q
  | .str s => s
  | .arr xs => String.intercalate "," (Json.jsStrList xs)
  | .obj _ => "[object Object]"

/-- Array elements under JS `Array.prototype.toString`: `null` joins as `""`. -/
def Json.jsStrList : List Json → List String
  | [] => []
  | .null :: rest => "" :: Json.jsStrList rest
  | j :: rest => j.jsStr :: Json.jsStrList rest

end

/-- JS string coercion of a possibly-undefined value (used for `byId[r.id]`). -/
def jsToStr : Option Json → String
  | none => "undefined"
  | some j => j.jsStr

/-- Minimal JSON serialization (`JSON.stringify`); string escaping covers
quotes and backslashes, which suffices for the data shapes modelled here. -/
def escapeJsonChar (c : Char) : String :=
  if c = '"' then "\\\"" else if c = '\\' then "\\\\" else String.singleton c

def escapeJson (s : String) : String :=
  String.join (s.toList.map escapeJsonChar)

mutual

def Json.stringify : Json → String
  | .null => "null"
  | .bool true => "true"
  | .bool false => "false"
  | .num q => toString q
  | .str s => "\"" ++ escapeJson s ++ "\""
  | .arr xs => "[" ++ String.intercalate "," (Json.stringifyList xs) ++ "]"
  | .obj fs => "\x7b" ++ String.intercalate "," (Json.stringifyFields fs) ++ "\x7d"

def Json.stringifyList : List Json → List String
  | [] => []
  | j :: rest => j.stringify :: Json.stringifyList rest

def Json.stringifyFields : List (String × Json) → List String
  | [] => []
  | (k, v) :: rest => ("\"" ++ escapeJson k ++ "\":" ++ v.stringify) :: Json.stringifyFields rest

end

/-- The `AZURE_OPENAI_*` environment variables; `none` models an unset
variable and the empty string is falsy, as for JS env access. -/
structure Config where
  uri : Option String := none
  key : Option String := none
  deployment : Option String := none

/-- Truthiness of an optional environment string. -/
def optTruthy : Option String → Bool
  | none => false
  | some s => s != ""

/-- The guard `!AZURE_OPENAI_URI || !AZURE_OPENAI_KEY || !AZURE_OPENAI_DEPLOYMENT`
negated: all three variables are set and non-empty. -/
def Config.configured (c : Config) : Bool :=
  optTruthy c.uri && optTruthy c.key && optTruthy c.deployment

/-- A candidate record as consumed by `llm.js` (`availability` is opaque). -/
structure Nurse where
  id : String
  name : String
  city : String
  rating : Rat := 0
  reviewsCount : Int := 0
  services : List String := []
  expertiseTags : List String := []
  lat : Option Rat := none
  lng : Option Rat := none
  availability : Json := .null

/-- The inbound match request body. -/
structure Query where
  city : Option String := none
  servicesQuery : Option (List String) := none
  service : Option String := none
  expertiseQuery : Option (List String) := none
  start : Option String := none
  endTime : Option String := none
  lat : Option Rat := none
  lng : Option Rat := none
  urgent : Bool := false
  topK : Option Nat := none

/-- The compact query projection produced by `buildPrompt`. -/
structure PromptQuery where
  city : Option String
  servicesQuery : List String
  expertiseQuery : List String
  timeWindow : Option (String × String)
  location : Option (Rat × Rat)
  urgent : Bool
deriving Repr, DecidableEq

/-- The compact candidate projection produced by `buildPrompt`. -/
structure PromptCandidate where
  id : String
  name : String
  city : String
  rating : Rat
  reviewsCount : Int
  services : List String
  expertiseTags : List String
  lat : Option Rat
  lng : Option Rat
  availability : Json

structure Prompt where
  q : PromptQuery
  c : List PromptCandidate

/-- `buildPrompt(query, candidates)`: field normalization only
(`??` null-coalescing, truthiness for the time window, `!= null` for the
location pair). -/
def buildPrompt (query : Query) (candidates : List Nurse) : Prompt :=
  { q :=
      { city := query.city
        servicesQuery :=
          match query.servicesQuery with
          | some l => l
          | none =>
            match query.service with
            | some s => if s != "" then [s] else []
            | none => []
        expertiseQuery := query.expertiseQuery.getD []
        timeWindow :=
          match query.start, query.endTime with
          | some s, some e => if s != "" && e != "" then some (s, e) else none
          | _, _ => none
        location :=
          match query.lat, query.lng with
          | some la, some ln => some (la, ln)
          | _, _ => none
        urgent := query.urgent }
    c := candidates.map fun n =>
      { id := n.id, name := n.name, city := n.city
        rating := n.rating, reviewsCount := n.reviewsCount
        services := n.services, expertiseTags := n.expertiseTags
        lat := n.lat, lng := n.lng, availability := n.availability } }

/-- `maskSensitive(str)`: truncate strings longer than 500 characters. -/
def maskSensitive (s : String) : String :=
  if s.length > 500 then (s.take 500) ++ "...[truncated]" else s

/-- A result entry as returned by `llmMatch`.  On the model-response path the
fields are copied from the raw parsed entry, so each is a possibly-undefined
JS value (`none` = `undefined`). -/
structure MatchResult where
  id : Option Json
  name : Option Json
  score : Option Json
  reason : Option Json

/-- `getMockResponse(allNurses, topK = 5)`: slice the first `topK` candidates
and score position `idx` as `1.0 - idx * 0.15`. -/
def getMockResponse (allNurses : List Nurse) (topK : Nat := 5) : List MatchResult :=
  (allNurses.take topK).enum.map fun p =>
    { id := some (.str p.2.id)
      name := some (.str p.2.name)
      score := some (.num (1 - p.1 * (15 / 100 : Rat)))
      reason := some (.str ("Mock match: " ++
        (match p.2.services.head? with
         | some s => if s != "" then s else "General care"
         | none => "General care") ++
        " expertise, " ++ p.2.city ++ " location")) }

/-- An HTTP response as seen by the pipeline: `body` is what `resp.text()`
would yield and `data` what `resp.json()` would yield. -/
structure FetchResp where
  status : Nat
  body : String := ""
  data : Json := .null

/-- Outcome of one `fetch` call: an HTTP response, or a network-level failure
(rejected promise). -/
inductive FetchOutcome where
  | resp : FetchResp → FetchOutcome
  | netErr : String → FetchOutcome

/-- `resp.ok`: status in the range 200–299. -/
def respOk (r : FetchResp) : Bool :=
  200 ≤ r.status && r.status ≤ 299

/-- The transient-status test of `retryFetch`: 429 or any 5xx. -/
def transientStatus (status : Nat) : Bool :=
  status == 429 || (500 ≤ status && status < 600)

/-- The backoff table `[250, 500]` of `retryFetch`. -/
def retryDelays : List Nat := [250, 500]

/-- Result of `retryFetch`, with an explicit trace: number of `fetch` calls
performed and the sleeps executed between attempts. -/
structure RetryResult where
  outcome : Except String FetchResp
  attempts : Nat
  delays : List Nat

/-- The attempt loop of `retryFetch`.  `attempt` is the current loop index and
`remaining` the number of attempts still allowed after this one
(`maxRetries - attempt`); a network error sets `lastError`, which the loop
throws once attempts are exhausted. -/
def retryFetchAux (fetchFn : Nat → FetchOutcome) :
    (attempt : Nat) → (remaining : Nat) → (slept : List Nat) → RetryResult
  | attempt, remaining + 1, slept =>
    match fetchFn attempt with
    | .resp r =>
      if !respOk r && transientStatus r.status then
        retryFetchAux fetchFn (attempt + 1) remaining (slept ++ [retryDelays.getD attempt 0])
      else
        { outcome := .ok r, attempts := attempt + 1, delays := slept }
    | .netErr _ =>
      retryFetchAux fetchFn (attempt + 1) remaining (slept ++ [retryDelays.getD attempt 0])
  | attempt, 0, slept =>
    match fetchFn attempt with
    | .resp r => { outcome := .ok r, attempts := attempt + 1, delays := slept }
    | .netErr e => { outcome := .error e, attempts := attempt + 1, delays := slept }

/-- `retryFetch(url, options, maxRetries = 2)`; the externally observable
behaviour of each `fetch` attempt is supplied as `fetchFn`. -/
def retryFetch (fetchFn : Nat → FetchOutcome) (maxRetries : Nat := 2) : RetryResult :=
  retryFetchAux fetchFn 0 maxRetries []

/-- One iteration of the response-shape probing loop: a `message` item whose
first content block is truthy yields its `text` field when that is truthy. -/
def extractFromItem (item : Json) : Option Json :=
  if (match item.get "type" with | some (.str s) => s == "message" | _ => false) then
    match item.get "content" with
    | some (.arr (c :: _)) =>
      if c.truthy then
        match c.get "text" with
        | some t =>
          if (match c.get "type" with | some (.str s) => s == "output_text" | _ => false)
              && t.truthy then some t
          else if t.truthy then some t
          else none
        | none => none
      else none
    | _ => none
  else none

/-- `a || b` on a possibly-undefined JS value. -/
def jsOr (a : Option Json) (b : Json) : Json :=
  match a with
  | some v => if v.truthy then v else b
  | none => b

/-- The text-extraction block of `llmMatch`: probe `data.output` for a message
item, then fall back to `data.output_text || data.text || JSON.stringify(data)`.
The result is a JS value because the fallbacks need not be strings. -/
def extractText (data : Json) : Json :=
  let fromOutput : Option Json :=
    match data.get "output" with
    | some (.arr items) => items.findSome? extractFromItem
    | _ => none
  match fromOutput with
  | some t => t
  | none => jsOr (data.get "output_text") (jsOr (data.get "text") (.str data.stringify))

/-- The parse step of `llmMatch`:
`parsed = typeof text === 'string' ? JSON.parse(text) : text`, with parse
failure surfacing a masked excerpt.  `JSON.parse` is the platform's parser,
supplied as `parseJson` (`none` = parse failure). -/
def parseStage (parseJson : String → Option Json) (text : Json) : Except String Json :=
  match text with
  | .str s =>
    match parseJson s with
    | some j => .ok j
    | none => .error ("LLM did not return valid JSON: " ++ maskSensitive s)
  | j => .ok j

/-- The sort key `r.score ?? 0` of an entry, as a rational.  The claims only
exercise entries whose `score` is a JSON number or absent/null, where this is
exact; other shapes would yield NaN comparisons in JS and fall outside every
claim below. -/
def entryScore (r : Json) : Rat :=
  match r.get "score" with
  | some (.num q) => q
  | _ => 0

/-- `byId[key]` where `byId = Object.fromEntries(allNurses.map(n => [n.id, n]))`:
for duplicate ids the later entry wins. -/
def lookupNurse (allNurses : List Nurse) (key : String) : Option Nurse :=
  allNurses.reverse.find? (fun n => n.id == key)

/-- `byId[r.id]?.name || r.id`: the display name is the matched candidate's
name when that is truthy, else the raw id value. -/
def resolveName (allNurses : List Nurse) (rid : Option Json) : Option Json :=
  match lookupNurse allNurses (jsToStr rid) with
  | some n => if n.name != "" then some (.str n.name) else rid
  | none => rid

/-- One entry of the final `results.map(...)`: copy the raw fields and resolve
`name` via `byId[r.id]?.name || r.id`. -/
def annotate (allNurses : List Nurse) (r : Json) : MatchResult :=
  { id := r.get "id", name := resolveName allNurses (r.get "id")
    score := r.get "score", reason := r.get "reason" }

/-- The sort key the comparator `(b.score ?? 0) - (a.score ?? 0)` uses, read
off a produced result entry. -/
def MatchResult.sortScore (m : MatchResult) : Rat :=
  match m.score with
  | some (.num q) => q
  | _ => 0

/-- The validate/rank tail of `llmMatch`:
`(parsed.results || []).sort((a,b) => (b.score??0)-(a.score??0))` followed by
the name-attaching map.  JS property access on `null` and `.sort` on a truthy
non-array raise `TypeError`, modelled as errors. -/
def rankParsed (parsed : Json) (allNurses : List Nurse) : Except String (List MatchResult) :=
  if parsed.isNull then .error "TypeError: Cannot read properties of null (reading results)"
  else
    match jsOr (parsed.get "results") (.arr []) with
    | .arr rs =>
      if rs.any Json.isNull then
        .error "TypeError: Cannot read properties of null"
      else
        .ok ((rs.mergeSort (fun a b => decide (entryScore b ≤ entryScore a))).map
          (annotate allNurses))
    | _ => .error "TypeError: results.sort is not a function"

/-- `query.topK || 5`. -/
def effTopK (query : Query) : Nat :=
  match query.topK with
  | some k => if k != 0 then k else 5
  | none => 5

/-- Observable outcome of one `llmMatch` call: the returned value or thrown
error, plus the network trace (number of `fetch` calls and sleeps). -/
structure LlmOutcome where
  result : Except String (List MatchResult)
  attempts : Nat
  delays : List Nat

/-- `llmMatch(query, allNurses)` (the retry/mock version of `llm.js`).
External effects are parameters: `parseJson` is the platform JSON parser and
`fetchFn` the behaviour of the endpoint on each attempt.  The request body
sent over the wire is `buildPrompt query allNurses` embedded in the Azure
payload; it does not influence the control flow modelled here. -/
def llmMatch (cfg : Config) (parseJson : String → Option Json)
    (fetchFn : Nat → FetchOutcome) (query : Query) (allNurses : List Nurse) : LlmOutcome :=
  if !cfg.configured then
    { result := .ok (getMockResponse allNurses (effTopK query)), attempts := 0, delays := [] }
  else
    let rf := retryFetch fetchFn 2
    match rf.outcome with
    | .error e => { result := .error e, attempts := rf.attempts, delays := rf.delays }
    | .ok r =>
      if !respOk r then
        { result := .error ("Azure OpenAI HTTP " ++ toString r.status ++ ": " ++
            maskSensitive r.body)
          attempts := rf.attempts, delays := rf.delays }
      else
        match parseStage parseJson (extractText r.data) with
        | .error e => { result := .error e, attempts := rf.attempts, delays := rf.delays }
        | .ok parsed =>
          { result := rankParsed parsed allNurses, attempts := rf.attempts, delays := rf.delays }

/-! ## Candidate source resolver (`db.js`) -/

/-- The environment variables read by the resolver (`none` = unset). -/
structure Env where
  useDbVar : Option String := none
  dbKindVar : Option String := none
  databaseUrl : Option String := none
  mongodbUri : Option String := none
  mongodbDb : Option String := none
  mongodbCollection : Option String := none

/-- `process.env.USE_DB === 'true'`. -/
def Env.useDb (e : Env) : Bool := e.useDbVar == some "true"

/-- `process.env.DB_KIND || 'postgres'`. -/
def Env.dbKind (e : Env) : String :=
  match e.dbKindVar with
  | some s => if s != "" then s else "postgres"
  | none => "postgres"

/-- The module-level connection handles (`pgPool`, `mongoClient`, `mongoDb`);
the handles themselves are opaque, only presence matters. -/
structure DbState where
  pgPool : Option Unit := none
  mongoClient : Option Unit := none
  mongoDb : Option Unit := none
deriving Repr, DecidableEq

/-- The `catch` cleanup of `initDb`: release and clear whatever handle is
open.  Returns the new state plus whether `pgPool.end()` and
`mongoClient.close()` were invoked. -/
def dbCleanup (st : DbState) : DbState × Bool × Bool :=
  let (st1, ended) :=
    match st.pgPool with
    | some _ => ({ st with pgPool := none }, true)
    | none => (st, false)
  let (st2, closed) :=
    match st1.mongoClient with
    | some _ => ({ st1 with mongoClient := none, mongoDb := none }, true)
    | none => (st1, false)
  (st2, ended, closed)

/-- Observable outcome of `initDb`: resulting handle state, whether the call
returned normally (`ok = false` means the error was re-thrown), the error
message if any, and which cleanup actions ran. -/
structure InitResult where
  state : DbState
  ok : Bool
  errMsg : Option String := none
  pgPoolEnded : Bool := false
  mongoClosed : Bool := false

/-- `initDb()`.  The outcome of the store's connection test (pool connect +
probe query, or Mongo connect + ping) is supplied as `connect`; the handle is
created before the test, matching the source's ordering, so a failed test
leaves a handle for the cleanup to release. -/
def initDb (env : Env) (connect : Except String Unit) (st : DbState) : InitResult :=
  if !env.useDb then
    { state := st, ok := true }
  else if env.dbKind = "postgres" then
    if !optTruthy env.databaseUrl then
      let (st', ended, closed) := dbCleanup st
      { state := st', ok := false, errMsg := some "DATABASE_URL not configured"
        pgPoolEnded := ended, mongoClosed := closed }
    else
      let st1 : DbState := { st with pgPool := some () }
      match connect with
      | .ok _ => { state := st1, ok := true }
      | .error e =>
        let (st', ended, closed) := dbCleanup st1
        { state := st', ok := false, errMsg := some e
          pgPoolEnded := ended, mongoClosed := closed }
  else if env.dbKind = "mongodb" then
    if !optTruthy env.mongodbUri then
      let (st', ended, closed) := dbCleanup st
      { state := st', ok := false, errMsg := some "MONGODB_URI not configured"
        pgPoolEnded := ended, mongoClosed := closed }
    else
      let st1 : DbState := { st with mongoClient := some (), mongoDb := some () }
      match connect with
      | .ok _ => { state := st1, ok := true }
      | .error e =>
        let (st', ended, closed) := dbCleanup st1
        { state := st', ok := false, errMsg := some e
          pgPoolEnded := ended, mongoClosed := closed }
  else
    let (st', ended, closed) := dbCleanup st
    { state := st', ok := false, errMsg := some ("Unknown DB_KIND: " ++ env.dbKind)
      pgPoolEnded := ended, mongoClosed := closed }

/-- The `health.database` projection returned by `dbHealth()`. -/
structure Health where
  enabled : Bool
  kind : String
  connected : Bool
  message : String
  count : Nat
deriving Repr, DecidableEq

/-- `dbHealth()`; the record-count query against the connected store is
supplied as `countQuery` (`Except.error` = the query threw). -/
def dbHealth (env : Env) (st : DbState) (countQuery : Except String Nat) : Health :=
  if !env.useDb then
    { enabled := false, kind := env.dbKind, connected := false
      message := "Database disabled (JSON fallback)", count := 0 }
  else if env.dbKind = "postgres" && st.pgPool.isSome then
    match countQuery with
    | .ok n =>
      { enabled := true, kind := env.dbKind, connected := true
        message := "PostgreSQL connected", count := n }
    | .error e =>
      { enabled := true, kind := env.dbKind, connected := false
        message := "Database error: " ++ e, count := 0 }
  else if env.dbKind = "mongodb" && st.mongoDb.isSome then
    match countQuery with
    | .ok n =>
      { enabled := true, kind := env.dbKind, connected := true
        message := "MongoDB connected", count := n }
    | .error e =>
      { enabled := true, kind := env.dbKind, connected := false
        message := "Database error: " ++ e, count := 0 }
  else
    { enabled := true, kind := env.dbKind, connected := false
      message := "Database not initialized", count := 0 }

/-- A raw row as returned by the store query, before normalization
(`none` = SQL NULL / missing field, or a non-numeric value fed to
`parseFloat`/`parseInt`). -/
structure NurseRow where
  id : String
  name : String
  services : Option (List String) := none
  expertiseTags : Option (List String) := none
  availability : Option Json := none
  city : String := ""
  state : String := ""
  rating : Option Rat := none
  reviews : Option Int := none

/-- A normalized candidate as produced by the database paths of
`loadNurses`. -/
structure DbNurse where
  id : String
  name : String
  services : List String
  expertiseTags : List String
  availability : Json
  city : String
  state : String
  rating : Rat
  reviews : Int

/-- The row-normalization map of `loadNurses`
(`row.services || []`, `parseFloat(row.rating) || 0`, ...). -/
def normalizeRow (r : NurseRow) : DbNurse :=
  { id := r.id, name := r.name
    services := r.services.getD []
    expertiseTags := r.expertiseTags.getD []
    availability := r.availability.getD (.arr [])
    city := r.city, state := r.state
    rating := r.rating.getD 0
    reviews := r.reviews.getD 0 }

/-- What a `loadNurses` call resolved to: the parsed static JSON file, rows
from the selected store, or JS `undefined` (`none` in the enclosing
`Option`). -/
inductive LoadResult where
  | fromFile : Json → LoadResult
  | fromDb : List DbNurse → LoadResult

/-- `loadNurses()`.  `staticData` is the parsed contents of the bundled
`nurses.json`; `queryResult` is the outcome of the live store query
(`Except.error` = the query threw).  A `none` result models the function
falling off the end and resolving to `undefined`. -/
def loadNurses (env : Env) (st : DbState) (staticData : Json)
    (queryResult : Except String (List NurseRow)) : Option LoadResult :=
  if !env.useDb || (env.dbKind = "postgres" && st.pgPool.isNone)
      || (env.dbKind = "mongodb" && st.mongoDb.isNone) then
    some (.fromFile staticData)
  else if env.dbKind = "postgres" then
    match queryResult with
    | .ok rows => some (.fromDb (rows.map normalizeRow))
    | .error _ => some (.fromFile staticData)
  else if env.dbKind = "mongodb" then
    match queryResult with
    | .ok rows => some (.fromDb (rows.map normalizeRow))
    | .error _ => some (.fromFile staticData)
  else
    none

/-! ## Helper lemmas -/

/-- A fetch outcome the retry loop treats as transient: a network-level
failure, or an HTTP response with status 429 or 5xx. -/
def transientOutcome (o : FetchOutcome) : Bool :=
  match o with
  | .netErr _ => true
  | .resp r => transientStatus r.status

theorem respOk_false_of_transient {r : FetchResp} (h : transientStatus r.status = true) :
    respOk r = false := by
  unfold transientStatus at h
  unfold respOk
  simp only [Bool.or_eq_true, beq_iff_eq, Bool.and_eq_true, decide_eq_true_eq] at h
  simp only [Bool.and_eq_false_iff, decide_eq_false_iff_not]
  omega

theorem retryFetchAux_transient_step (fetchFn : Nat → FetchOutcome)
    (att rem : Nat) (slept : List Nat) (h : transientOutcome (fetchFn att) = true) :
    retryFetchAux fetchFn att (rem + 1) slept =
      retryFetchAux fetchFn (att + 1) rem (slept ++ [retryDelays.getD att 0]) := by
  unfold transientOutcome at h
  cases hf : fetchFn att with
  | netErr e => simp only [retryFetchAux, hf]
  | resp r =>
    rw [hf] at h
    have ht : transientStatus r.status = true := h
    simp only [retryFetchAux, hf, ht, respOk_false_of_transient ht, Bool.not_false,
      Bool.and_self, if_true]

theorem retryFetchAux_return_step (fetchFn : Nat → FetchOutcome)
    (att rem : Nat) (slept : List Nat) (r : FetchResp)
    (hf : fetchFn att = .resp r) (hc : (!respOk r && transientStatus r.status) = false) :
    retryFetchAux fetchFn att rem slept =
      { outcome := .ok r, attempts := att + 1, delays := slept } := by
  cases rem with
  | zero => simp only [retryFetchAux, hf]
  | succ n => simp only [retryFetchAux, hf, hc, Bool.false_eq_true, if_false]

theorem retryFetchAux_zero_netErr (fetchFn : Nat → FetchOutcome)
    (att : Nat) (slept : List Nat) (e : String) (hf : fetchFn att = .netErr e) :
    retryFetchAux fetchFn att 0 slept =
      { outcome := .error e, attempts := att + 1, delays := slept } := by
  simp only [retryFetchAux, hf]

theorem retryFetchAux_ok_step (fetchFn : Nat → FetchOutcome)
    (att rem : Nat) (slept : List Nat) (r : FetchResp)
    (hf : fetchFn att = .resp r) (hok : respOk r = true) :
    retryFetchAux fetchFn att rem slept =
      { outcome := .ok r, attempts := att + 1, delays := slept } :=
  retryFetchAux_return_step fetchFn att rem slept r hf (by rw [hok]; rfl)

theorem retryFetchAux_nontransient_step (fetchFn : Nat → FetchOutcome)
    (att rem : Nat) (slept : List Nat) (r : FetchResp)
    (hf : fetchFn att = .resp r) (ht : transientStatus r.status = false) :
    retryFetchAux fetchFn att rem slept =
      { outcome := .ok r, attempts := att + 1, delays := slept } :=
  retryFetchAux_return_step fetchFn att rem slept r hf (by rw [ht]; simp)

theorem retryFetchAux_attempts_le (fetchFn : Nat → FetchOutcome) :
    ∀ (rem att : Nat) (slept : List Nat),
      (retryFetchAux fetchFn att rem slept).attempts ≤ att + rem + 1 := by
  intro rem
  induction rem with
  | zero =>
    intro att slept
    cases hf : fetchFn att with
    | netErr e =>
      rw [retryFetchAux_zero_netErr fetchFn att slept e hf]
    | resp r =>
      simp only [retryFetchAux, hf]
      omega
  | succ n ih =>
    intro att slept
    cases hf : fetchFn att with
    | netErr e =>
      rw [retryFetchAux_transient_step fetchFn att n slept (by simp [transientOutcome, hf])]
      have := ih (att + 1) (slept ++ [retryDelays.getD att 0])
      omega
    | resp r =>
      by_cases hc : (!respOk r && transientStatus r.status) = true
      · have hts : transientStatus r.status = true := by
          have := hc
          simp only [Bool.and_eq_true] at this
          exact this.2
        rw [retryFetchAux_transient_step fetchFn att n slept
          (by simp only [transientOutcome, hf]; exact hts)]
        have := ih (att + 1) (slept ++ [retryDelays.getD att 0])
        omega
      · rw [Bool.not_eq_true] at hc
        rw [retryFetchAux_return_step fetchFn att (n + 1) slept r hf hc]
        show att + 1 ≤ att + (n + 1) + 1
        omega

/-! ## Claim theorems -/

/-- **C4** (confirmed).  For every fetch behaviour that fails transiently
(HTTP 429, any 5xx, or a network-level failure) on exactly the first two
attempts and succeeds on the third, `retryFetch` returns the successful
response after performing exactly two retries, sleeping the non-zero delays
250ms then 500ms before them; and for any behaviour at all the loop performs
at most two retries beyond the first attempt (at most 3 fetch calls). -/
theorem retryFetch_transient_twice_then_success
    (fetchFn : Nat → FetchOutcome) (r : FetchResp)
    (h0 : transientOutcome (fetchFn 0) = true)
    (h1 : transientOutcome (fetchFn 1) = true)
    (h2 : fetchFn 2 = .resp r) (hok : respOk r = true) :
    retryFetch fetchFn 2 = { outcome := .ok r, attempts := 3, delays := [250, 500] } ∧
    (∀ d ∈ [250, 500], 0 < d) ∧
    (∀ g : Nat → FetchOutcome, (retryFetch g 2).attempts ≤ 3) := by
  refine ⟨?_, by decide, fun g => retryFetchAux_attempts_le g 2 0 []⟩
  unfold retryFetch
  rw [retryFetchAux_transient_step fetchFn 0 1 [] h0,
    retryFetchAux_transient_step fetchFn 1 0 _ h1,
    retryFetchAux_ok_step fetchFn 2 0 _ r h2 hok]
  rfl

theorem retryFetch_transient_twice_then_success_witness :
    transientOutcome ((fun n => if n = 0 then .resp { status := 503 }
        else if n = 1 then .netErr "ECONNRESET" else .resp { status := 200 } : Nat → FetchOutcome) 0)
      = true ∧
    retryFetch (fun n => if n = 0 then .resp { status := 503 }
        else if n = 1 then .netErr "ECONNRESET" else .resp { status := 200 }) 2 =
      { outcome := .ok { status := 200 }, attempts := 3, delays := [250, 500] } :=
  ⟨by decide,
    (retryFetch_transient_twice_then_success _ { status := 200 }
      (by decide) (by decide) rfl (by decide)).1⟩

/-- **C5** (confirmed).  For every fetch behaviour that returns HTTP 400 (or
any non-429 4xx status) on the first attempt, the client performs exactly one
attempt with no sleeps, and `llmMatch` surfaces the HTTP error immediately. -/
theorem llmMatch_4xx_no_retry
    (cfg : Config) (parseJson : String → Option Json) (fetchFn : Nat → FetchOutcome)
    (query : Query) (allNurses : List Nurse) (r : FetchResp)
    (hcfg : cfg.configured = true) (hf : fetchFn 0 = .resp r)
    (h4 : 400 ≤ r.status) (h4' : r.status < 500) (h429 : r.status ≠ 429) :
    retryFetch fetchFn 2 = { outcome := .ok r, attempts := 1, delays := [] } ∧
    llmMatch cfg parseJson fetchFn query allNurses =
      { result := .error ("Azure OpenAI HTTP " ++ toString r.status ++ ": " ++
          maskSensitive r.body)
        attempts := 1, delays := [] } := by
  have ht : transientStatus r.status = false := by
    unfold transientStatus
    simp only [Bool.or_eq_false_iff, beq_eq_false_iff_ne, ne_eq, Bool.and_eq_false_iff,
      decide_eq_false_iff_not]
    omega
  have hrf : retryFetch fetchFn 2 = { outcome := .ok r, attempts := 1, delays := [] } :=
    retryFetchAux_nontransient_step fetchFn 0 2 [] r hf ht
  refine ⟨hrf, ?_⟩
  have hnotok : respOk r = false := by
    unfold respOk
    simp only [Bool.and_eq_false_iff, decide_eq_false_iff_not]
    omega
  unfold llmMatch
  rw [hcfg, hrf]
  simp [hnotok]

theorem llmMatch_4xx_no_retry_witness :
    Config.configured { uri := some "u", key := some "k", deployment := some "d" } = true ∧
    llmMatch { uri := some "u", key := some "k", deployment := some "d" } (fun _ => none)
        (fun _ => .resp { status := 400, body := "Bad Request" }) {} [] =
      { result := .error ("Azure OpenAI HTTP 400: Bad Request")
        attempts := 1, delays := [] } :=
  ⟨by decide,
    (llmMatch_4xx_no_retry _ _ _ {} [] { status := 400, body := "Bad Request" }
      (by decide) rfl (by decide) (by decide) (by decide)).2⟩

/-- **C9** (confirmed).  For every non-empty candidate list, the mock fallback
path of `llmMatch` (taken when no live endpoint is configured) performs no
fetch call, sleeps nothing, and returns a value rather than throwing. -/
theorem llmMatch_mock_no_network_no_throw
    (cfg : Config) (parseJson : String → Option Json) (fetchFn : Nat → FetchOutcome)
    (query : Query) (allNurses : List Nurse)
    (hcfg : cfg.configured = false) (hne : allNurses ≠ []) :
    (llmMatch cfg parseJson fetchFn query allNurses).attempts = 0 ∧
    (llmMatch cfg parseJson fetchFn query allNurses).delays = [] ∧
    (llmMatch cfg parseJson fetchFn query allNurses).result =
      .ok (getMockResponse allNurses (effTopK query)) := by
  unfold llmMatch
  rw [hcfg]
  exact ⟨rfl, rfl, rfl⟩

theorem llmMatch_mock_no_network_no_throw_witness :
    Config.configured {} = false ∧
    ([{ id := "n1", name := "Alice", city := "Tel Aviv" }] : List Nurse) ≠ [] ∧
    (llmMatch {} (fun _ => none) (fun _ => .netErr "down") {}
      [{ id := "n1", name := "Alice", city := "Tel Aviv" }]).attempts = 0 :=
  ⟨by decide, by simp,
    (llmMatch_mock_no_network_no_throw {} (fun _ => none) (fun _ => .netErr "down") {}
      [{ id := "n1", name := "Alice", city := "Tel Aviv" }] (by decide) (by simp)).1⟩

/-- **C10** (confirmed).  With `USE_DB = 'true'` and a `DB_KIND` other than
`postgres` or `mongodb`, no branch of `loadNurses` applies and the call
resolves to `undefined` (`none`), not a candidate list nor the static file. -/
theorem loadNurses_unknown_kind_undefined
    (env : Env) (st : DbState) (staticData : Json)
    (queryResult : Except String (List NurseRow))
    (hu : env.useDb = true) (hp : env.dbKind ≠ "postgres") (hm : env.dbKind ≠ "mongodb") :
    loadNurses env st staticData queryResult = none := by
  unfold loadNurses
  simp [hu, hp, hm]

theorem loadNurses_unknown_kind_undefined_witness :
    Env.useDb { useDbVar := some "true", dbKindVar := some "mysql" } = true ∧
    loadNurses { useDbVar := some "true", dbKindVar := some "mysql" } {} (.str "static") (.ok [])
      = none :=
  ⟨by decide,
    loadNurses_unknown_kind_undefined _ {} (.str "static") (.ok [])
      (by decide) (by decide) (by decide)⟩

/-- **C8** (confirmed).  When a live query to the selected store throws during
`loadNurses`, the error is caught and the call returns the static JSON file's
contents instead of propagating the error. -/
theorem loadNurses_query_error_falls_back
    (env : Env) (st : DbState) (staticData : Json) (e : String)
    (hu : env.useDb = true)
    (hlive : (env.dbKind = "postgres" ∧ st.pgPool.isSome) ∨
             (env.dbKind = "mongodb" ∧ st.mongoDb.isSome)) :
    loadNurses env st staticData (.error e) = some (.fromFile staticData) := by
  unfold loadNurses
  rcases hlive with ⟨hk, hpool⟩ | ⟨hk, hdb⟩
  · have hm : env.dbKind ≠ "mongodb" := by rw [hk]; decide
    simp [hu, hk, hpool, hm, Option.isNone_iff_eq_none]
  · have hp : env.dbKind ≠ "postgres" := by rw [hk]; decide
    simp [hu, hk, hdb, hp, Option.isNone_iff_eq_none]

/-- A concrete relational-store environment used by witnesses. -/
def pgEnv : Env :=
  { useDbVar := some "true"
    dbKindVar := some "postgres"
    databaseUrl := some "postgres://h/db" }

theorem loadNurses_query_error_falls_back_witness :
    Env.useDb pgEnv = true ∧
    loadNurses pgEnv { pgPool := some () } (.str "static") (.error "connection reset") =
      some (.fromFile (.str "static")) :=
  ⟨by decide,
    loadNurses_query_error_falls_back _ { pgPool := some () } (.str "static") "connection reset"
      (by decide) (Or.inl ⟨by decide, by decide⟩)⟩

/-- **C7** (confirmed).  If the relational store is selected and `initDb`'s
connection attempt fails, the pool handle is released (`pool.end()` runs) and
cleared, every subsequent `loadNurses` call returns the static JSON file's
contents unchanged, and `dbHealth` reports `connected = false`. -/
theorem initDb_pg_failure_falls_back
    (env : Env) (e : String)
    (hu : env.useDb = true) (hk : env.dbKind = "postgres")
    (hurl : optTruthy env.databaseUrl = true) :
    (initDb env (.error e) {}).state.pgPool = none ∧
    (initDb env (.error e) {}).pgPoolEnded = true ∧
    (initDb env (.error e) {}).ok = false ∧
    (∀ (staticData : Json) (qr : Except String (List NurseRow)),
      loadNurses env (initDb env (.error e) {}).state staticData qr =
        some (.fromFile staticData)) ∧
    (∀ cq : Except String Nat, (dbHealth env (initDb env (.error e) {}).state cq).connected
        = false) := by
  have hinit : initDb env (.error e) {} =
      { state := {}, ok := false, errMsg := some e, pgPoolEnded := true } := by
    unfold initDb
    rw [hu, hk]
    simp [hurl, dbCleanup]
  rw [hinit]
  have hm : env.dbKind ≠ "mongodb" := by rw [hk]; decide
  refine ⟨rfl, rfl, rfl, ?_, ?_⟩
  · intro staticData qr
    unfold loadNurses
    simp [hu, hk]
  · intro cq
    unfold dbHealth
    simp [hu, hk, hm]

theorem length_take_eq_min (s : String) (n : Nat) : (s.take n).length = min n s.length := by
  rw [String.take_eq]
  show (s.data.take n).length = min n s.data.length
  rw [List.length_take]

/-- **C6** (confirmed).  When the extracted text is a string that is not valid
JSON, `llmMatch` surfaces a malformed-response error whose diagnostic embeds
only a bounded excerpt: the whole masked text is at most 514 characters, and
for texts longer than 500 characters only the first 500 characters plus a
truncation marker appear — a strict prefix, never the full payload. -/
theorem llmMatch_malformed_json_bounded_excerpt
    (parseJson : String → Option Json) (s : String) (hfail : parseJson s = none) :
    parseStage parseJson (.str s) =
      .error ("LLM did not return valid JSON: " ++ maskSensitive s) ∧
    (maskSensitive s).length ≤ 514 ∧
    (s.length > 500 →
      maskSensitive s = s.take 500 ++ "...[truncated]" ∧ s.take 500 ≠ s) ∧
    (∀ (cfg : Config) (fetchFn : Nat → FetchOutcome) (query : Query)
        (allNurses : List Nurse) (r : FetchResp),
      cfg.configured = true → fetchFn 0 = .resp r → respOk r = true →
      extractText r.data = .str s →
      (llmMatch cfg parseJson fetchFn query allNurses).result =
        .error ("LLM did not return valid JSON: " ++ maskSensitive s)) := by
  have hstage : parseStage parseJson (.str s) =
      .error ("LLM did not return valid JSON: " ++ maskSensitive s) := by
    simp only [parseStage, hfail]
  have htk : s.length > 500 → (s.take 500).length = 500 := by
    intro h
    rw [length_take_eq_min]
    omega
  refine ⟨hstage, ?_, ?_, ?_⟩
  · unfold maskSensitive
    split
    · rename_i h
      rw [String.length_append, htk h]
      have : ("...[truncated]" : String).length = 14 := rfl
      omega
    · rename_i h
      omega
  · intro h
    refine ⟨by unfold maskSensitive; rw [if_pos h], fun heq => ?_⟩
    have := htk h
    rw [heq] at this
    omega
  · intro cfg fetchFn query allNurses r hcfg hf hok hex
    have hrf : retryFetch fetchFn 2 = { outcome := .ok r, attempts := 1, delays := [] } :=
      retryFetchAux_ok_step fetchFn 0 2 [] r hf hok
    unfold llmMatch
    rw [hcfg, hrf]
    simp only [Bool.not_true, Bool.false_eq_true, if_false]
    rw [hok]
    simp only [Bool.not_true, Bool.false_eq_true, if_false]
    rw [hex, hstage]

theorem llmMatch_malformed_json_bounded_excerpt_witness :
    ((fun _ => none : String → Option Json) "\x7b\"results\": [") = none ∧
    parseStage (fun _ => none) (.str "\x7b\"results\": [") =
      .error ("LLM did not return valid JSON: " ++ maskSensitive "\x7b\"results\": [") :=
  ⟨rfl, (llmMatch_malformed_json_bounded_excerpt (fun _ => none) _ rfl).1⟩

theorem initDb_pg_failure_falls_back_witness :
    Env.useDb pgEnv = true ∧
    (∀ cq : Except String Nat,
      (dbHealth pgEnv (initDb pgEnv (.error "ECONNREFUSED") {}).state cq).connected = false) :=
  ⟨by decide,
    (initDb_pg_failure_falls_back pgEnv "ECONNREFUSED"
      (by decide) (by decide) (by decide)).2.2.2.2⟩

/-- The amended mock ranking contract: `min(topK, n)` results drawn from the
first `topK` candidates in their existing order, scores `1 - 0.15·i` strictly
decreasing, and non-negative (indeed within `[0,1]`) whenever at most 7
results are returned; position 7 onward goes negative. -/
def mockOutputSpec (query : Query) (allNurses : List Nurse) (res : List MatchResult) : Prop :=
  res.length = min (effTopK query) allNurses.length ∧
  res.map MatchResult.id =
    (allNurses.take (effTopK query)).map (fun n => some (.str n.id)) ∧
  res.map MatchResult.name =
    (allNurses.take (effTopK query)).map (fun n => some (.str n.name)) ∧
  res.map MatchResult.score =
    (List.range res.length).map (fun i : Nat => some (.num (1 - (i : Rat) * (15 / 100)))) ∧
  List.Chain' (fun a b : Rat => b < a)
    ((List.range res.length).map (fun i : Nat => (1 - (i : Rat) * (15 / 100)))) ∧
  (res.length ≤ 7 →
    ∀ q ∈ (List.range res.length).map (fun i : Nat => (1 - (i : Rat) * (15 / 100))),
      0 ≤ q ∧ q ≤ 1)

theorem chain'_mock_scores (n : Nat) :
    List.Chain' (fun a b : Rat => b < a)
      ((List.range n).map (fun i : Nat => (1 - (i : Rat) * (15 / 100)))) := by
  rw [List.chain'_map]
  cases n with
  | zero => simp
  | succ m =>
    rw [List.chain'_range_succ]
    intro i _
    push_cast
    linarith

/-- **C1** (corrected).  On the mock path `llmMatch` returns exactly
`min(topK, candidates.length)` results taken from the first `topK` candidates
in order with strictly decreasing scores `1.0 - 0.15·i`; the scores are
non-negative only while at most 7 results are produced (the claim's
unconditional non-negativity fails from position 7 on). -/
theorem llmMatch_mock_ranking_amended
    (cfg : Config) (parseJson : String → Option Json) (fetchFn : Nat → FetchOutcome)
    (query : Query) (allNurses : List Nurse)
    (hcfg : cfg.configured = false) (hne : allNurses ≠ []) :
    ∃ res, (llmMatch cfg parseJson fetchFn query allNurses).result = .ok res ∧
      mockOutputSpec query allNurses res := by
  clear hne
  refine ⟨getMockResponse allNurses (effTopK query), ?_, ?_, ?_, ?_, ?_, ?_, ?_⟩
  · unfold llmMatch
    rw [hcfg]
    rfl
  · simp [getMockResponse]
  · show ((allNurses.take (effTopK query)).enum.map _).map MatchResult.id = _
    conv_rhs => rw [← List.enum_map_snd (allNurses.take (effTopK query))]
    rw [List.map_map, List.map_map]
    rfl
  · show ((allNurses.take (effTopK query)).enum.map _).map MatchResult.name = _
    conv_rhs => rw [← List.enum_map_snd (allNurses.take (effTopK query))]
    rw [List.map_map, List.map_map]
    rfl
  · show ((allNurses.take (effTopK query)).enum.map _).map MatchResult.score = _
    have hlen : (getMockResponse allNurses (effTopK query)).length =
        (allNurses.take (effTopK query)).length := by
      simp [getMockResponse]
    rw [hlen]
    conv_rhs => rw [← List.enum_map_fst (allNurses.take (effTopK query))]
    rw [List.map_map, List.map_map]
    rfl
  · exact chain'_mock_scores _
  · intro hlen q hq
    rw [List.mem_map] at hq
    obtain ⟨i, hi, rfl⟩ := hq
    rw [List.mem_range] at hi
    have hi6 : i ≤ 6 := by omega
    have hc : (i : Rat) ≤ 6 := by exact_mod_cast hi6
    have h0 : (0 : Rat) ≤ (i : Rat) := Nat.cast_nonneg i
    constructor <;> nlinarith

/-- Eight distinct candidates used to exhibit the negative mock score. -/
def mockCexNurses : List Nurse :=
  [{ id := "n1", name := "A", city := "c" }, { id := "n2", name := "B", city := "c" },
   { id := "n3", name := "C", city := "c" }, { id := "n4", name := "D", city := "c" },
   { id := "n5", name := "E", city := "c" }, { id := "n6", name := "F", city := "c" },
   { id := "n7", name := "G", city := "c" }, { id := "n8", name := "H", city := "c" }]

/-- **C1 counterexample.**  With `topK = 8` and eight candidates (no live
endpoint configured) the mock path of `llmMatch` produces the score
`1.0 - 7·0.15 = -0.05 < 0` at position 7, refuting the claimed unconditional
non-negativity. -/
theorem llmMatch_mock_negative_score_counterexample :
    ((llmMatch {} (fun _ => none) (fun _ => .netErr "") { topK := some 8 }
        mockCexNurses).result.map (fun res => res.map MatchResult.score)) =
      .ok [some (.num 1), some (.num (17/20)), some (.num (7/10)), some (.num (11/20)),
        some (.num (2/5)), some (.num (1/4)), some (.num (1/10)), some (.num (-(1/20)))] ∧
    (-(1/20) : Rat) < 0 :=
  ⟨by with_unfolding_all rfl, by norm_num⟩

/-- Three candidates matching the specification's end-to-end example. -/
def mockWitnessNurses : List Nurse :=
  [{ id := "n1", name := "Dana", city := "Tel Aviv", services := ["Wound Care"] },
   { id := "n2", name := "Noa", city := "Haifa", services := ["Geriatrics"] },
   { id := "n3", name := "Omer", city := "Ramat Gan", services := ["Pediatrics"] }]

theorem llmMatch_mock_ranking_amended_witness :
    Config.configured {} = false ∧
    mockWitnessNurses ≠ [] ∧
    (∃ res, (llmMatch {} (fun _ => none) (fun _ => .netErr "offline") { topK := some 3 }
        mockWitnessNurses).result = .ok res ∧
      mockOutputSpec { topK := some 3 } mockWitnessNurses res) ∧
    ((llmMatch {} (fun _ => none) (fun _ => .netErr "offline") { topK := some 3 }
        mockWitnessNurses).result.map (fun res => res.map MatchResult.score)) =
      .ok [some (.num 1), some (.num (17/20)), some (.num (7/10))] :=
  ⟨by decide, by simp [mockWitnessNurses],
    llmMatch_mock_ranking_amended {} (fun _ => none) (fun _ => .netErr "offline")
      { topK := some 3 } mockWitnessNurses (by decide) (by simp [mockWitnessNurses]),
    by with_unfolding_all rfl⟩

theorem isNull_false_of_get {parsed : Json} {k : String} {v : Json}
    (h : Json.get parsed k = some v) : parsed.isNull = false := by
  cases parsed <;> simp_all [Json.get, Json.isNull]

/-- **C2** (corrected).  Result scores lie in `[0,1]` only conditionally: on
the mock path whenever at most 7 results are returned, and on the
model-response path the raw parsed scores are passed through unclamped, so
the bound holds exactly when the response's own scores satisfy it. -/
theorem llmMatch_scores_passthrough_amended :
    (∀ (cfg : Config) (parseJson : String → Option Json) (fetchFn : Nat → FetchOutcome)
        (query : Query) (allNurses : List Nurse) (res : List MatchResult),
      cfg.configured = false →
      (llmMatch cfg parseJson fetchFn query allNurses).result = .ok res →
      res.length ≤ 7 →
      ∀ m ∈ res, ∃ q : Rat, m.score = some (.num q) ∧ 0 ≤ q ∧ q ≤ 1) ∧
    (∀ (parsed : Json) (allNurses : List Nurse) (rs : List Json) (out : List MatchResult),
      Json.get parsed "results" = some (.arr rs) →
      rankParsed parsed allNurses = .ok out →
      (∀ r ∈ rs, ∃ q : Rat, Json.get r "score" = some (.num q) ∧ 0 ≤ q ∧ q ≤ 1) →
      ∀ m ∈ out, ∃ q : Rat, m.score = some (.num q) ∧ 0 ≤ q ∧ q ≤ 1) := by
  constructor
  · intro cfg parseJson fetchFn query allNurses res hcfg hres hlen m hm
    have hmock : (llmMatch cfg parseJson fetchFn query allNurses).result =
        .ok (getMockResponse allNurses (effTopK query)) := by
      unfold llmMatch
      rw [hcfg]
      rfl
    rw [hmock] at hres
    injection hres with hres
    subst hres
    unfold getMockResponse at hm hlen
    rw [List.mem_map] at hm
    obtain ⟨p, hp, rfl⟩ := hm
    rw [List.mem_enum_iff_getElem?] at hp
    have hplt : p.1 < (allNurses.take (effTopK query)).length := by
      rcases List.getElem?_eq_some.mp hp with ⟨h, _⟩
      exact h
    rw [List.length_map, List.enum_length] at hlen
    have hi6 : p.1 ≤ 6 := by omega
    have hc : (p.1 : Rat) ≤ 6 := by exact_mod_cast hi6
    have h0 : (0 : Rat) ≤ (p.1 : Rat) := Nat.cast_nonneg p.1
    exact ⟨1 - p.1 * (15 / 100), rfl, by nlinarith, by nlinarith⟩
  · intro parsed allNurses rs out hres hrank hsc m hm
    have hnull : parsed.isNull = false := isNull_false_of_get hres
    by_cases hany : rs.any Json.isNull = true
    · simp [rankParsed, hnull, hres, jsOr, Json.truthy, hany] at hrank
    · rw [Bool.not_eq_true] at hany
      simp only [rankParsed, hnull, hres, jsOr, Json.truthy, hany, if_true, eq_self_iff_true,
        Bool.false_eq_true, if_false, ne_eq, Except.ok.injEq] at hrank
      subst hrank
      rw [List.mem_map] at hm
      obtain ⟨r, hr, rfl⟩ := hm
      have hrrs : r ∈ rs := ((List.mergeSort_perm rs _).mem_iff).mp hr
      obtain ⟨q, hq, h0, h1⟩ := hsc r hrrs
      exact ⟨q, hq, h0, h1⟩

/-- Concrete inputs showing the model path passes an out-of-range score through. -/
def scoreCexCfg : Config := { uri := some "u", key := some "k", deployment := some "d" }

def scoreCexParse : String → Option Json := fun _ =>
  some (.obj [("results", .arr [.obj [("id", .str "a"), ("score", .num 2),
    ("reason", .str "r")]])])

/-- **C2 counterexample.**  A parsed model response carrying `score: 2` flows
through `llmMatch` unchanged: the produced entry's score is 2, outside
`[0,1]` (the JSON-schema bound is not enforced by the code). -/
theorem llmMatch_score_out_of_range_counterexample :
    ((llmMatch scoreCexCfg scoreCexParse
        (fun _ => .resp { status := 200, data := .obj [("output_text", .str "payload")] })
        {} []).result.map (fun res => res.map MatchResult.score)) =
      .ok [some (.num 2)] ∧
    ¬ ((2 : Rat) ≤ 1) :=
  ⟨by with_unfolding_all rfl, by norm_num⟩

def c2wNurses : List Nurse :=
  [{ id := "m1", name := "P", city := "x" }, { id := "m2", name := "Q", city := "x" }]

theorem llmMatch_scores_passthrough_amended_witness :
    Config.configured {} = false ∧
    (getMockResponse c2wNurses (effTopK { topK := some 2 })).length ≤ 7 ∧
    (∀ m ∈ getMockResponse c2wNurses (effTopK { topK := some 2 }),
      ∃ q : Rat, m.score = some (.num q) ∧ 0 ≤ q ∧ q ≤ 1) :=
  ⟨by decide, by simp [getMockResponse, c2wNurses],
    llmMatch_scores_passthrough_amended.1 {} (fun _ => none) (fun _ => .netErr "")
      { topK := some 2 } c2wNurses _ (by decide) rfl
      (by simp [getMockResponse, c2wNurses])⟩

/-- **C3** (corrected).  For a well-formed `results` array the output is the
stable descending sort by `score ?? 0` of the entries (a permutation of the
annotated entries, pairwise non-increasing), with no error raised, and the
`results` field defaulting to the empty list when absent.  Name resolution is
weaker than claimed: an entry's `name` is the matching candidate's name only
when that name is truthy (non-empty) — `byId[r.id]?.name || r.id` — and the
matching candidate is the *last* one with that id; otherwise the raw id is
used. -/
theorem rankParsed_sorted_and_names_amended :
    (∀ (parsed : Json) (allNurses : List Nurse),
      parsed.isNull = false → Json.get parsed "results" = none →
      rankParsed parsed allNurses = .ok []) ∧
    (∀ (parsed : Json) (allNurses : List Nurse) (rs : List Json),
      Json.get parsed "results" = some (.arr rs) →
      (∀ r ∈ rs, r.isNull = false) →
      ∃ out, rankParsed parsed allNurses = .ok out ∧
        out.Perm (rs.map (annotate allNurses)) ∧
        List.Chain' (fun a b => MatchResult.sortScore b ≤ MatchResult.sortScore a) out ∧
        (∀ m ∈ out, m.name = resolveName allNurses m.id)) := by
  constructor
  · intro parsed allNurses hnull hres
    simp [rankParsed, hnull, hres, jsOr]
  · intro parsed allNurses rs hres hnn
    have hnull : parsed.isNull = false := isNull_false_of_get hres
    have hany : rs.any Json.isNull = false := by
      rw [List.any_eq_false]
      intro r hr
      rw [hnn r hr]
      exact Bool.false_ne_true
    refine ⟨(rs.mergeSort (fun a b => decide (entryScore b ≤ entryScore a))).map
      (annotate allNurses), ?_, ?_, ?_, ?_⟩
    · simp [rankParsed, hnull, hres, jsOr, Json.truthy, hany]
    · exact (List.mergeSort_perm rs _).map _
    · apply List.Pairwise.chain'
      refine List.Pairwise.map (annotate allNurses)
        (fun a b h => (of_decide_eq_true h : entryScore b ≤ entryScore a))
        (List.sorted_mergeSort ?_ ?_ rs)
      · intro a b c hab hbc
        simp only [decide_eq_true_eq] at hab hbc ⊢
        exact le_trans hbc hab
      · intro a b
        simp only [Bool.or_eq_true, decide_eq_true_eq]
        exact le_total (entryScore b) (entryScore a)
    · intro m hm
      rw [List.mem_map] at hm
      obtain ⟨r, _, rfl⟩ := hm
      rfl

/-- A single candidate whose stored display name is the empty string. -/
def nameCexNurse : Nurse := { id := "n1", name := "", city := "c" }

/-- **C3 counterexample.**  The candidate with id `"n1"` exists in the list
but has the (falsy) empty name, so `byId[r.id]?.name || r.id` yields the raw
id `"n1"` instead of the candidate's name `""` — the claimed unconditional
name resolution fails. -/
theorem rankParsed_name_resolution_counterexample :
    ((rankParsed (.obj [("results", .arr [.obj [("id", .str "n1"), ("score", .num 1),
          ("reason", .str "r")]])]) [nameCexNurse]).map
        (fun out => out.map MatchResult.name)) =
      .ok [some (.str "n1")] ∧
    nameCexNurse.id = "n1" ∧
    nameCexNurse.name = "" ∧
    (Json.str "n1") ≠ (Json.str "") :=
  ⟨by with_unfolding_all rfl, rfl, rfl, by simp⟩

def c3wNurses : List Nurse := [{ id := "n2", name := "Bob", city := "h" }]

def c3wEntries : List Json :=
  [.obj [("id", .str "n2"), ("score", .num (1/2)), ("reason", .str "ok")],
   .obj [("id", .str "zz"), ("score", .num (9/10)), ("reason", .str "best")]]

theorem rankParsed_sorted_and_names_amended_witness :
    Json.get (.obj [("results", .arr c3wEntries)]) "results" = some (.arr c3wEntries) ∧
    (∃ out, rankParsed (.obj [("results", .arr c3wEntries)]) c3wNurses = .ok out ∧
      out.Perm (c3wEntries.map (annotate c3wNurses)) ∧
      List.Chain' (fun a b => MatchResult.sortScore b ≤ MatchResult.sortScore a) out ∧
      (∀ m ∈ out, m.name = resolveName c3wNurses m.id)) :=
  ⟨rfl,
    rankParsed_sorted_and_names_amended.2 (.obj [("results", .arr c3wEntries)]) c3wNurses
      c3wEntries rfl (by decide)⟩

end LlmSvc
